import Mathlib

/-!
Shallow embedding of the context/device lifecycle layer of
rust-offscreen-rendering-context.

Three Rust modules are embedded, each in its own namespace:

* `WithEgl` — `src/platform/with_egl/native_gl_context.rs`: the native EGL
  context (`NativeGLContext`), its constructor `new`, the `Drop` impl, and the
  `NativeGLContextMethods` operations `current_handle`, `current`,
  `is_current`, `make_current`, `handle`, `unbind`.
* `Universal` — `surfman/src/platform/generic/universal/context.rs`: the
  hardware/software tagged dispatcher for `Device`/`Context` operations.
* `Angle` — `surfman/src/platform/windows/angle/device.rs`: the ANGLE bridge
  that adopts a D3D11 device into an EGL display.

Native-API handles (EGLDisplay, EGLSurface, EGLContext, EGLConfig, D3D11
device pointers) are raw pointers in the source; they are modelled as `Nat`
with `0` for the null constants (`EGL_NO_CONTEXT`, `EGL_NO_SURFACE`,
`EGL_NO_DISPLAY`, `EGL_NO_DEVICE_EXT` are all the null pointer). The outcome
of each native call is external to this layer, so it is supplied by an
explicit oracle structure, and the thread's current-context slot (state owned
by the native API) is threaded through as an explicit state record that also
logs every native call made, so that "performs no native call" claims are
statable.
-/

namespace WithEgl

/-- EGL constant: `egl::NO_CONTEXT` is the null pointer. -/
def NO_CONTEXT : Nat := 0

/-- EGL constant: `egl::NO_SURFACE` is the null pointer. -/
def NO_SURFACE : Nat := 0

/-- EGL constant: `egl::NO_DISPLAY` is the null pointer. -/
def NO_DISPLAY : Nat := 0

/-- EGL constant: `egl::FALSE` as an `EGLBoolean`. -/
def EGL_FALSE : Nat := 0

/-- EGL constant: `egl::CONTEXT_CLIENT_VERSION` (0x3098). -/
def CONTEXT_CLIENT_VERSION : Int := 0x3098

/-- EGL constant: `egl::NONE` (0x3038), the attribute-list terminator. -/
def EGL_NONE : Int := 0x3038

/-- The thread's current-context slot owned by the native EGL API (current
context, display, draw and read surfaces), plus a log of every native call
this layer has issued: `eglCreateContext` calls (display, config, shared
context, attribute list), `eglMakeCurrent` calls (display, draw, read,
context), `eglDestroySurface` and `eglDestroyContext` calls. -/
structure EglState where
  currentContext : Nat
  currentDisplay : Nat
  currentDrawSurface : Nat
  currentReadSurface : Nat
  createContextLog : List (Nat × Nat × Nat × List Int) := []
  makeCurrentLog : List (Nat × Nat × Nat × Nat) := []
  destroySurfaceLog : List (Nat × Nat) := []
  destroyContextLog : List (Nat × Nat) := []
deriving Repr, DecidableEq

/-- Behaviour of the native EGL driver, external to this layer: what each
fallible native call returns. `debugAssertions` selects a debug build, where
a Rust `debug_assert!` aborts, over a release build, where it is compiled
out. -/
structure EglOracle where
  CreateContext : Nat → Nat → Nat → List Int → Nat
  MakeCurrent : Nat → Nat → Nat → Nat → Bool
  DestroySurface : Nat → Nat → Bool
  DestroyContext : Nat → Nat → Bool
  debugAssertions : Bool

/-- Native call `egl.CreateContext(display, config, shared, attribs)`: asks
the driver for a context (0 = `EGL_NO_CONTEXT` on failure) and logs the
call. It does not touch the current-context slot. -/
def eglCreateContext (o : EglOracle) (s : EglState) (display config shared : Nat)
    (attribs : List Int) : Nat × EglState :=
  (o.CreateContext display config shared attribs,
   { s with createContextLog := s.createContextLog ++ [(display, config, shared, attribs)] })

/-- Native call `egl.MakeCurrent(display, draw, read, ctx)`: on success (per
the oracle) the thread's slot becomes (ctx, display, draw, read), with the
display reported as `NO_DISPLAY` when the context is `NO_CONTEXT`, per the
EGL rule that `eglGetCurrentDisplay` reports the current context's display;
on failure the slot is unchanged. The call is logged either way. -/
def eglMakeCurrent (o : EglOracle) (s : EglState) (display draw rd ctx : Nat) :
    Nat × EglState :=
  let s1 := { s with makeCurrentLog := s.makeCurrentLog ++ [(display, draw, rd, ctx)] }
  if o.MakeCurrent display draw rd ctx then
    (1, { s1 with currentContext := ctx,
                  currentDisplay := if ctx = NO_CONTEXT then NO_DISPLAY else display,
                  currentDrawSurface := draw,
                  currentReadSurface := rd })
  else
    (EGL_FALSE, s1)

/-- Native call `egl.DestroySurface(display, surface)`: logs the destroy and
returns the driver's `EGLBoolean` result. -/
def eglDestroySurface (o : EglOracle) (s : EglState) (display surface : Nat) :
    Nat × EglState :=
  ((if o.DestroySurface display surface then 1 else 0),
   { s with destroySurfaceLog := s.destroySurfaceLog ++ [(display, surface)] })

/-- Native call `egl.DestroyContext(display, ctx)`: logs the destroy and
returns the driver's `EGLBoolean` result. -/
def eglDestroyContext (o : EglOracle) (s : EglState) (display ctx : Nat) :
    Nat × EglState :=
  ((if o.DestroyContext display ctx then 1 else 0),
   { s with destroyContextLog := s.destroyContextLog ++ [(display, ctx)] })

/-- `pub struct NativeGLContextHandle(pub EGLDisplay, pub EGLSurface)`: a
two-field tuple struct. Its fields are declared with those types but every
use site stores (current context, current display) in them, so they are kept
here as the positional fields `fld0` and `fld1`. -/
structure NativeGLContextHandle where
  fld0 : Nat
  fld1 : Nat
deriving Repr, DecidableEq

/-- `pub struct NativeGLContext`: one native EGL context with the display and
surface it was created against, and the `weak` ownership flag. -/
structure NativeGLContext where
  native_display : Nat
  native_surface : Nat
  native_context : Nat
  weak : Bool
deriving Repr, DecidableEq

/-- The EGL attribute list `new` builds:
`[egl::CONTEXT_CLIENT_VERSION, client_version, egl::NONE, 0, 0, 0]`. -/
def newAttributes (client_version : Int) : List Int :=
  [CONTEXT_CLIENT_VERSION, client_version, EGL_NONE, 0, 0, 0]

/-- The shared-context argument `new` resolves before calling
`CreateContext`: the supplied context, or `egl::NO_CONTEXT` when not
sharing. -/
def sharedArg : Option Nat → Nat
  | some ctx => ctx
  | none => NO_CONTEXT

/-- `NativeGLContext::new(egl, share_context, display, surface, config,
client_version)`. The u8 `client_version` is modelled as `Nat`. It resolves
the shared context (`egl::NO_CONTEXT` when none), issues `CreateContext`
with the requested client version; when sharing was requested, that call
failed, and the version is not 3, it retries once with
`CONTEXT_CLIENT_VERSION` 3 (the Mali-T880 sharing workaround); when the
context is still `NO_CONTEXT` it destroys the surface it was given and
reports the creation error; otherwise it returns the owning (`weak :=
false`) context. -/
def NativeGLContext.new (o : EglOracle) (s : EglState) (share_context : Option Nat)
    (display surface config : Nat) (client_version : Nat) :
    Except String NativeGLContext × EglState :=
  let shared : Nat :=
    match share_context with
    | some ctx => ctx
    | none => NO_CONTEXT
  let attributes := newAttributes (client_version : Int)
  let r1 := eglCreateContext o s display config shared attributes
  let r2 :=
    if share_context.isSome ∧ r1.1 = NO_CONTEXT ∧ client_version ≠ 3 then
      let attributes := newAttributes 3
      eglCreateContext o r1.2 display config shared attributes
    else r1
  if r2.1 = NO_CONTEXT then
    let r3 := eglDestroySurface o r2.2 display surface
    (Except.error ("Error creating an EGL context"), r3.2)
  else
    (Except.ok { native_display := display
                 native_surface := surface
                 native_context := r2.1
                 weak := false }, r2.2)

/-- `fn is_current(&self) -> bool`: compares `egl.GetCurrentContext()` with
this context's native context. -/
def NativeGLContext.is_current (c : NativeGLContext) (s : EglState) : Bool :=
  s.currentContext = c.native_context

/-- `fn make_current(&self)`: when not current, issues
`egl.MakeCurrent(display, surface, surface, ctx)` (draw and read identical)
and fails when the driver reports `egl::FALSE`; when already current the
native call is skipped (Rust `&&` short-circuit) and it returns `Ok(())`. -/
def NativeGLContext.make_current (o : EglOracle) (c : NativeGLContext) (s : EglState) :
    Except String Unit × EglState :=
  if c.is_current s then
    (Except.ok (), s)
  else
    let r := eglMakeCurrent o s c.native_display c.native_surface c.native_surface
               c.native_context
    if r.1 = EGL_FALSE then
      (Except.error ("egl::MakeCurrent"), r.2)
    else
      (Except.ok (), r.2)

/-- `fn handle(&self)`: `NativeGLContextHandle(self.native_context,
self.native_display)`. -/
def NativeGLContext.handle (c : NativeGLContext) : NativeGLContextHandle :=
  { fld0 := c.native_context, fld1 := c.native_display }

/-- `fn unbind(&self)`: when current, issues `egl.MakeCurrent(display,
NO_SURFACE, NO_SURFACE, NO_CONTEXT)` and fails when the driver reports
`egl::FALSE`; when not current the native call is skipped (Rust `&&`
short-circuit) and it returns `Ok(())`. -/
def NativeGLContext.unbind (o : EglOracle) (c : NativeGLContext) (s : EglState) :
    Except String Unit × EglState :=
  if c.is_current s then
    let r := eglMakeCurrent o s c.native_display NO_SURFACE NO_SURFACE NO_CONTEXT
    if r.1 = EGL_FALSE then
      (Except.error ("egl::MakeCurrent (on unbind)"), r.2)
    else
      (Except.ok (), r.2)
  else
    (Except.ok (), s)

/-- `impl Drop for NativeGLContext`: first a best-effort `unbind` whose
result is discarded, then, only when the context is not weak,
`DestroySurface` followed by `DestroyContext` (their failures are only
logged). -/
def NativeGLContext.drop (o : EglOracle) (c : NativeGLContext) (s : EglState) : EglState :=
  let r := c.unbind o s
  if !c.weak then
    let r1 := eglDestroySurface o r.2 c.native_display c.native_surface
    let r2 := eglDestroyContext o r1.2 c.native_display c.native_context
    r2.2
  else
    r.2

/-- Free function `current_handle(egl)`: reads `GetCurrentContext` and
`GetCurrentDisplay`; `Some` only when both differ from their null constant. -/
def current_handle (s : EglState) : Option NativeGLContextHandle :=
  let native_context := s.currentContext
  let native_display := s.currentDisplay
  if native_context ≠ NO_CONTEXT ∧ native_display ≠ NO_DISPLAY then
    some { fld0 := native_context, fld1 := native_display }
  else
    none

/-- Outcome of a call that can neither fail recoverably nor return: `panic`
models a Rust panic (from `assert!`, `expect`, or `debug_assert!` in a debug
build). -/
inductive Outcome (α : Type) where
  | ok (value : α)
  | panic (msg : String)
deriving Repr, DecidableEq

/-- `fn current() -> Option<Self>`: via `current_handle`; when a handle is
current it also reads the draw surface (`GetCurrentSurface(egl::DRAW)`),
`debug_assert!`s it is not `NO_SURFACE` (a panic in a debug build only), and
wraps the triple as a weak context, storing `handle.0` as the context and
`handle.1` as the display. -/
def NativeGLContext.current (o : EglOracle) (s : EglState) :
    Outcome (Option NativeGLContext) :=
  match current_handle s with
  | some handle =>
      let surface := s.currentDrawSurface
      if o.debugAssertions ∧ surface = NO_SURFACE then
        Outcome.panic ("debug assertion failed: surface != egl::NO_SURFACE")
      else
        Outcome.ok (some { native_context := handle.fld0
                           native_display := handle.fld1
                           native_surface := surface
                           weak := true })
  | none => Outcome.ok none

end WithEgl

namespace Universal

/-- `surfman::Error`, restricted to the variants this layer produces. -/
inductive Error where
  | DeviceOpenFailed
  | IncompatibleContext
  | IncompatibleContextDescriptor
  | IncompatibleSurface
  | UnsupportedOnThisPlatform
deriving Repr, DecidableEq

/-- Outcome of a dispatcher accessor whose Rust signature returns a plain
value but whose mismatch arm is a `panic!`. -/
inductive POutcome (α : Type) where
  | ok (value : α)
  | err (e : Error)
  | panic (msg : String)
deriving Repr, DecidableEq

/-- The Hardware/Software variant of a tagged value, for stating the
dispatcher's routing properties. -/
inductive Tag where
  | Hardware
  | Software
deriving Repr, DecidableEq

/-- `pub enum Device { Hardware(HWDevice), Software(OSMesaDevice) }`; the
backend device types live outside this repository slice, so they are type
parameters. -/
inductive Device (H S : Type) where
  | Hardware (device : H)
  | Software (device : S)
deriving Repr, DecidableEq

/-- `pub enum Context { Hardware(HWContext), Software(OSMesaContext) }`. -/
inductive Context (H S : Type) where
  | Hardware (context : H)
  | Software (context : S)
deriving Repr, DecidableEq

/-- `pub enum ContextDescriptor { Hardware(..), Software(..) }`. -/
inductive ContextDescriptor (H S : Type) where
  | Hardware (descriptor : H)
  | Software (descriptor : S)
deriving Repr, DecidableEq

/-- `pub enum Surface { Hardware(..), Software(..) }` (from the sibling
`universal/surface.rs`, used here only as a tagged operand). -/
inductive Surface (H S : Type) where
  | Hardware (surface : H)
  | Software (surface : S)
deriving Repr, DecidableEq

/-- `pub enum SurfaceRef { Hardware(..), Software(..) }`. -/
inductive SurfaceRef (H S : Type) where
  | Hardware (surface : H)
  | Software (surface : S)
deriving Repr, DecidableEq

/-- The variant a `Device` holds. -/
def Device.tag {H S : Type} : Device H S → Tag
  | .Hardware _ => .Hardware
  | .Software _ => .Software

/-- The variant a `Context` holds. -/
def Context.tag {H S : Type} : Context H S → Tag
  | .Hardware _ => .Hardware
  | .Software _ => .Software

/-- The variant a `ContextDescriptor` holds. -/
def ContextDescriptor.tag {H S : Type} : ContextDescriptor H S → Tag
  | .Hardware _ => .Hardware
  | .Software _ => .Software

/-- The variant a `Surface` holds. -/
def Surface.tag {H S : Type} : Surface H S → Tag
  | .Hardware _ => .Hardware
  | .Software _ => .Software

/-- `Device::create_context`: a two-way match on (device, descriptor); the
matching arm delegates to that backend's `create_context` (passed in as
`hw_create`/`sw_create`, since the backends are outside this slice) and wraps
the result; every mixed pair is `Err(IncompatibleContextDescriptor)`. -/
def Device.create_context {HD SD HDesc SDesc HC SC : Type}
    (hw_create : HD → HDesc → Except Error HC)
    (sw_create : SD → SDesc → Except Error SC)
    (self : Device HD SD) (descriptor : ContextDescriptor HDesc SDesc) :
    Except Error (Context HC SC) :=
  match self, descriptor with
  | Device.Hardware device, ContextDescriptor.Hardware descriptor =>
      (hw_create device descriptor).map Context.Hardware
  | Device.Software device, ContextDescriptor.Software descriptor =>
      (sw_create device descriptor).map Context.Software
  | _, _ => Except.error Error.IncompatibleContextDescriptor

/-- `Device::bind_surface_to_context`: matches (device, context) first — a
mixed pair is `Err(IncompatibleContext)` — then, inside a matching arm,
matches the surface, and a surface of the other variant is
`Err(IncompatibleSurface)`. The backend call mutates the context through
`&mut`, modelled by returning the updated backend context. -/
def Device.bind_surface_to_context {HD SD HC SC HS SS : Type}
    (hw_bind : HD → HC → HS → Except Error HC)
    (sw_bind : SD → SC → SS → Except Error SC)
    (self : Device HD SD) (context : Context HC SC) (surface : Surface HS SS) :
    Except Error (Context HC SC) :=
  match self, context with
  | Device.Hardware device, Context.Hardware context =>
      match surface with
      | Surface.Hardware surface => (hw_bind device context surface).map Context.Hardware
      | _ => Except.error Error.IncompatibleSurface
  | Device.Software device, Context.Software context =>
      match surface with
      | Surface.Software surface => (sw_bind device context surface).map Context.Software
      | _ => Except.error Error.IncompatibleSurface
  | _, _ => Except.error Error.IncompatibleContext

/-- `Device::context_descriptor`: returns a plain `ContextDescriptor`; the
mixed arm is `panic!("Incompatible context!")`. -/
def Device.context_descriptor {HD SD HC SC HDesc SDesc : Type}
    (hw : HD → HC → HDesc) (sw : SD → SC → SDesc)
    (self : Device HD SD) (context : Context HC SC) :
    POutcome (ContextDescriptor HDesc SDesc) :=
  match self, context with
  | Device.Hardware device, Context.Hardware context =>
      POutcome.ok (ContextDescriptor.Hardware (hw device context))
  | Device.Software device, Context.Software context =>
      POutcome.ok (ContextDescriptor.Software (sw device context))
  | _, _ => POutcome.panic ("Incompatible context!")

/-- `Device::context_descriptor_attributes`: returns plain
`ContextAttributes` (opaque here, the type parameter `A`); the mixed arm is
`panic!("Incompatible context!")`. -/
def Device.context_descriptor_attributes {HD SD HDesc SDesc A : Type}
    (hw : HD → HDesc → A) (sw : SD → SDesc → A)
    (self : Device HD SD) (context_descriptor : ContextDescriptor HDesc SDesc) :
    POutcome A :=
  match self, context_descriptor with
  | Device.Hardware device, ContextDescriptor.Hardware context_descriptor =>
      POutcome.ok (hw device context_descriptor)
  | Device.Software device, ContextDescriptor.Software context_descriptor =>
      POutcome.ok (sw device context_descriptor)
  | _, _ => POutcome.panic ("Incompatible context!")

/-- `Device::get_proc_address`: returns a raw pointer (modelled as `Nat`);
the mixed arm is `panic!("Incompatible context!")`. -/
def Device.get_proc_address {HD SD HC SC : Type}
    (hw : HD → HC → String → Nat) (sw : SD → SC → String → Nat)
    (self : Device HD SD) (context : Context HC SC) (symbol_name : String) :
    POutcome Nat :=
  match self, context with
  | Device.Hardware device, Context.Hardware context =>
      POutcome.ok (hw device context symbol_name)
  | Device.Software device, Context.Software context =>
      POutcome.ok (sw device context symbol_name)
  | _, _ => POutcome.panic ("Incompatible context!")

/-- `Device::context_id`: returns a plain `ContextID` (modelled as `Nat`);
the mixed arm is `panic!("Incompatible context!")`. -/
def Device.context_id {HD SD HC SC : Type}
    (hw : HD → HC → Nat) (sw : SD → SC → Nat)
    (self : Device HD SD) (context : Context HC SC) : POutcome Nat :=
  match self, context with
  | Device.Hardware device, Context.Hardware context => POutcome.ok (hw device context)
  | Device.Software device, Context.Software context => POutcome.ok (sw device context)
  | _, _ => POutcome.panic ("Incompatible context!")

/-- `Device::context_surface`: a `Result` signature, so the mixed arm is
`Err(UnsupportedOnThisPlatform)` rather than a panic. -/
def Device.context_surface {HD SD HC SC HS SS : Type}
    (hw : HD → HC → Except Error (Option HS))
    (sw : SD → SC → Except Error (Option SS))
    (self : Device HD SD) (context : Context HC SC) :
    Except Error (Option (SurfaceRef HS SS)) :=
  match self, context with
  | Device.Hardware device, Context.Hardware context =>
      (hw device context).map (fun s => s.map SurfaceRef.Hardware)
  | Device.Software device, Context.Software context =>
      (sw device context).map (fun s => s.map SurfaceRef.Software)
  | _, _ => Except.error Error.UnsupportedOnThisPlatform

end Universal

namespace Angle

/-- The minimum D3D feature level `Device::new` debug-asserts:
`D3D_FEATURE_LEVEL_9_3` (0x9300). -/
def D3D_FEATURE_LEVEL_9_3 : Int := 0x9300

/-- `winerror::SUCCEEDED(hr)`: an `HRESULT` is a success code iff it is
non-negative. -/
def SUCCEEDED (result : Int) : Bool :=
  decide (0 ≤ result)

/-- EGL constant `EGL_NO_DEVICE_EXT`: the null device handle. -/
def EGL_NO_DEVICE_EXT : Nat := 0

/-- EGL constant `egl::NO_DISPLAY`: the null display handle. -/
def NO_DISPLAY : Nat := 0

/-- EGL constant `egl::FALSE` as an `EGLBoolean`. -/
def EGL_FALSE : Nat := 0

/-- `super::adapter::Adapter`: a DXGI adapter handle (opaque, modelled as
`Nat`) plus its `D3D_DRIVER_TYPE` classification. -/
structure Adapter where
  dxgi_adapter : Nat
  d3d_driver_type : Nat
deriving Repr, DecidableEq

/-- `pub struct Device { native_display, d3d11_device, d3d_driver_type }`;
the boxed `NativeDisplay` is kept as its EGL display handle. -/
structure Device where
  native_display : Nat
  d3d11_device : Nat
  d3d_driver_type : Nat
deriving Repr, DecidableEq

/-- Behaviour of the native D3D11/EGL calls `Device::new` and
`Device::from_d3d11_device` make, external to this layer.
`D3D11CreateDevice` takes the adapter handle and driver type and yields the
`HRESULT`, the created device and its feature level; `CreateDeviceANGLE` is
`None` when the `EGL_ANGLE_device_creation` extension pointer is absent,
otherwise the function from a D3D11 device to an EGL device handle;
`GetPlatformDisplay` maps the EGL device to a display; `initDisplay` is
`eglInitialize` on that display, as an `EGLBoolean`. `debugAssertions`
selects a debug build, where `debug_assert!` aborts. -/
structure D3DOracle where
  D3D11CreateDevice : Nat → Nat → Int × Nat × Int
  CreateDeviceANGLE : Option (Nat → Nat)
  GetPlatformDisplay : Nat → Nat
  initDisplay : Nat → Nat
  debugAssertions : Bool

/-- `Device::from_d3d11_device(d3d11_device, d3d_driver_type)`: unwraps the
`EGL_ANGLE_device_creation` extension pointer with `expect` (a panic when
absent), registers the D3D11 device (`assert_ne!` against
`EGL_NO_DEVICE_EXT`), opens the platform display for the device handle
(`assert_ne!` against `egl::NO_DISPLAY`), initializes it (`assert_ne!`
against `egl::FALSE`), and only then builds the `Device`. Its Rust return
type is plain `Self`: no `Err` is ever produced, only a value or a panic. -/
def Device.from_d3d11_device (o : D3DOracle) (d3d11_device : Nat)
    (d3d_driver_type : Nat) : Universal.POutcome Device :=
  match o.CreateDeviceANGLE with
  | none =>
      Universal.POutcome.panic ("Where is the EGL_ANGLE_device_creation extension?")
  | some eglCreateDeviceANGLE =>
      let egl_device := eglCreateDeviceANGLE d3d11_device
      if egl_device = EGL_NO_DEVICE_EXT then
        Universal.POutcome.panic ("assertion failed: egl_device != EGL_NO_DEVICE_EXT")
      else
        let egl_display := o.GetPlatformDisplay egl_device
        if egl_display = NO_DISPLAY then
          Universal.POutcome.panic ("assertion failed: egl_display != egl::NO_DISPLAY")
        else if o.initDisplay egl_display = EGL_FALSE then
          Universal.POutcome.panic ("assertion failed: result != egl::FALSE")
        else
          Universal.POutcome.ok { native_display := egl_display
                                  d3d11_device := d3d11_device
                                  d3d_driver_type := d3d_driver_type }

/-- `Device::new(_, adapter)`: calls `D3D11CreateDevice` for the adapter's
driver type; a failed `HRESULT` is `Err(Error::DeviceOpenFailed)`; the
feature level is then checked only by
`debug_assert!(d3d11_feature_level >= D3D_FEATURE_LEVEL_9_3)` (an abort in a
debug build, compiled out in release); finally it delegates to
`from_d3d11_device`. -/
def Device.new (o : D3DOracle) (adapter : Adapter) : Universal.POutcome Device :=
  let d3d_driver_type := adapter.d3d_driver_type
  let r := o.D3D11CreateDevice adapter.dxgi_adapter d3d_driver_type
  if !SUCCEEDED r.1 then
    Universal.POutcome.err Universal.Error.DeviceOpenFailed
  else if o.debugAssertions ∧ r.2.2 < D3D_FEATURE_LEVEL_9_3 then
    Universal.POutcome.panic
      ("debug assertion failed: d3d11_feature_level >= D3D_FEATURE_LEVEL_9_3")
  else
    Device.from_d3d11_device o r.2.1 d3d_driver_type

end Angle

namespace WithEgl

/-- Concrete EGL driver for witness evaluation: every `CreateContext` call
fails, every other native call succeeds; a debug build. -/
def egl_oracle_fail : EglOracle where
  CreateContext := fun _ _ _ _ => 0
  MakeCurrent := fun _ _ _ _ => true
  DestroySurface := fun _ _ => true
  DestroyContext := fun _ _ => true
  debugAssertions := true

/-- Concrete thread state for witness evaluation: context 1 on display 2
with draw/read surface 3 current, no native calls logged yet. -/
def egl_state0 : EglState where
  currentContext := 1
  currentDisplay := 2
  currentDrawSurface := 3
  currentReadSurface := 3

/-- The weak context `current()` yields on `egl_state0`. -/
def weak_ctx0 : NativeGLContext where
  native_display := 2
  native_surface := 3
  native_context := 1
  weak := true

end WithEgl

namespace Angle

/-- Concrete native behaviour for the ANGLE bridge: `D3D11CreateDevice`
succeeds (`HRESULT` 0) with device handle 5 at feature level 0, and every
EGL adoption step succeeds; a debug build. -/
def d3d_oracle0 : D3DOracle where
  D3D11CreateDevice := fun _ _ => (0, 5, 0)
  CreateDeviceANGLE := some (fun d => d + 1)
  GetPlatformDisplay := fun d => d + 1
  initDisplay := fun _ => 1
  debugAssertions := true

/-- A concrete adapter for witness evaluation. -/
def adapter0 : Adapter where
  dxgi_adapter := 4
  d3d_driver_type := 1

end Angle


namespace WithEgl


/-- C1: when `new` is called with a share context and the first native
`CreateContext` call fails, then if the requested client version is not 3
exactly one retry is issued, with `CONTEXT_CLIENT_VERSION` 3 and otherwise
identical arguments (the call log grows by exactly those two calls); when no
retry applies (no sharing, or version already 3) no second call is made; and
whenever the attempt that was allowed to run last also fails, the supplied
surface is destroyed (the destroy log grows by exactly that surface) and the
creation error is returned. -/
theorem NativeGLContext.new_creation_failure_spec (o : EglOracle) (s : EglState)
    (share_context : Option Nat) (display surface config : Nat) (client_version : Nat)
    (hfail1 : o.CreateContext display config (sharedArg share_context)
        (newAttributes (client_version : Int)) = NO_CONTEXT) :
    (share_context.isSome = true ∧ client_version ≠ 3 →
      (NativeGLContext.new o s share_context display surface config
          client_version).2.createContextLog =
        s.createContextLog ++
          [(display, config, sharedArg share_context, newAttributes (client_version : Int)),
           (display, config, sharedArg share_context, newAttributes 3)] ∧
      (o.CreateContext display config (sharedArg share_context) (newAttributes 3) =
          NO_CONTEXT →
        (NativeGLContext.new o s share_context display surface config client_version).1 =
          Except.error ("Error creating an EGL context") ∧
        (NativeGLContext.new o s share_context display surface config
            client_version).2.destroySurfaceLog =
          s.destroySurfaceLog ++ [(display, surface)])) ∧
    (¬(share_context.isSome = true ∧ client_version ≠ 3) →
      (NativeGLContext.new o s share_context display surface config
          client_version).2.createContextLog =
        s.createContextLog ++
          [(display, config, sharedArg share_context, newAttributes (client_version : Int))] ∧
      (NativeGLContext.new o s share_context display surface config client_version).1 =
        Except.error ("Error creating an EGL context") ∧
      (NativeGLContext.new o s share_context display surface config
          client_version).2.destroySurfaceLog =
        s.destroySurfaceLog ++ [(display, surface)]) := by
  constructor
  · rintro ⟨hsome, h3⟩
    cases share_context with
    | none => simp at hsome
    | some sc =>
        simp only [sharedArg] at hfail1
        by_cases hr : o.CreateContext display config sc (newAttributes 3) = NO_CONTEXT
        · refine ⟨?_, fun _ => ⟨?_, ?_⟩⟩ <;>
            simp [NativeGLContext.new, eglCreateContext, eglDestroySurface, sharedArg,
              hfail1, hr, h3]
        · refine ⟨?_, fun hr2 => absurd hr2 hr⟩
          simp [NativeGLContext.new, eglCreateContext, eglDestroySurface, sharedArg,
            hfail1, hr, h3]
  · intro hno
    cases share_context with
    | none =>
        simp only [sharedArg] at hfail1
        refine ⟨?_, ?_, ?_⟩ <;>
          simp [NativeGLContext.new, eglCreateContext, eglDestroySurface, sharedArg, hfail1]
    | some sc =>
        have h3 : client_version = 3 := by
          by_contra h3
          exact hno ⟨rfl, h3⟩
        subst h3
        simp only [sharedArg] at hfail1
        simp only [Nat.cast_ofNat] at hfail1
        refine ⟨?_, ?_, ?_⟩ <;>
          simp [NativeGLContext.new, eglCreateContext, eglDestroySurface, sharedArg, hfail1]

/-- Witness for C1 at a concrete input: with a driver whose `CreateContext`
always fails, sharing context 5 and requesting client version 2, `new`
issues exactly the two logged creation calls (the second with client
version 3), destroys surface 8 on display 7, and reports the creation
error. -/
theorem NativeGLContext.new_creation_failure_witness :
    (NativeGLContext.new egl_oracle_fail egl_state0 (some 5) 7 8 9 2).1 =
      Except.error ("Error creating an EGL context") ∧
    (NativeGLContext.new egl_oracle_fail egl_state0 (some 5) 7 8 9 2).2.createContextLog =
      egl_state0.createContextLog ++
        [(7, 9, 5, newAttributes (2 : Int)), (7, 9, 5, newAttributes 3)] ∧
    (NativeGLContext.new egl_oracle_fail egl_state0 (some 5) 7 8 9
        2).2.destroySurfaceLog =
      egl_state0.destroySurfaceLog ++ [(7, 8)] := by
  have h := NativeGLContext.new_creation_failure_spec egl_oracle_fail egl_state0 (some 5)
    7 8 9 2 rfl
  have h1 := h.1 (by decide)
  exact ⟨(h1.2 rfl).1, h1.1, (h1.2 rfl).2⟩


/-- C2 counterexample: on a thread where context 1 is current on display 2
with draw surface 3, `current()` yields a weak context; dropping that weak
context runs the unconditional `unbind` in `Drop`, which clears the
thread's current-context slot (the slot's context becomes `NO_CONTEXT`), so
a subsequent `current()` returns `None` rather than an equivalent handle. -/
theorem NativeGLContext.weak_drop_counterexample :
    NativeGLContext.current egl_oracle_fail egl_state0 = Outcome.ok (some weak_ctx0) ∧
    weak_ctx0.weak = true ∧
    (NativeGLContext.drop egl_oracle_fail weak_ctx0 egl_state0).currentContext =
      NO_CONTEXT ∧
    NativeGLContext.current egl_oracle_fail
      (NativeGLContext.drop egl_oracle_fail weak_ctx0 egl_state0) = Outcome.ok none := by
  refine ⟨?_, rfl, ?_, ?_⟩ <;> rfl

/-- C2 as amended: dropping a weak `NativeGLContext` never issues a native
destroy call (`DestroySurface`/`DestroyContext` logs are unchanged), and
when the weak context is not current at drop time the whole native state —
the current-context slot included — is untouched, so a later `current()`
still sees the same slot; but `Drop` unconditionally attempts `unbind`, so
when the weak context is current and the native clear succeeds, the
thread's current-context slot is cleared to `NO_CONTEXT`. -/
theorem NativeGLContext.weak_drop_spec (o : EglOracle) (c : NativeGLContext)
    (s : EglState) (hweak : c.weak = true) :
    (NativeGLContext.drop o c s).destroySurfaceLog = s.destroySurfaceLog ∧
    (NativeGLContext.drop o c s).destroyContextLog = s.destroyContextLog ∧
    (c.is_current s = false → NativeGLContext.drop o c s = s) ∧
    (c.is_current s = true →
      o.MakeCurrent c.native_display NO_SURFACE NO_SURFACE NO_CONTEXT = true →
      (NativeGLContext.drop o c s).currentContext = NO_CONTEXT) := by
  refine ⟨?_, ?_, fun h => ?_, fun h hmc => ?_⟩
  · by_cases h : c.is_current s = true
    · have hd : NativeGLContext.drop o c s = (c.unbind o s).2 := by
        simp [NativeGLContext.drop, hweak]
      rw [hd]
      by_cases hmc : o.MakeCurrent c.native_display 0 0 0 = true <;>
        simp [NativeGLContext.unbind, h, eglMakeCurrent, hmc, EGL_FALSE, NO_CONTEXT,
          NO_SURFACE, NO_DISPLAY]
    · simp [NativeGLContext.drop, hweak, NativeGLContext.unbind, h]
  · by_cases h : c.is_current s = true
    · have hd : NativeGLContext.drop o c s = (c.unbind o s).2 := by
        simp [NativeGLContext.drop, hweak]
      rw [hd]
      by_cases hmc : o.MakeCurrent c.native_display 0 0 0 = true <;>
        simp [NativeGLContext.unbind, h, eglMakeCurrent, hmc, EGL_FALSE, NO_CONTEXT,
          NO_SURFACE, NO_DISPLAY]
    · simp [NativeGLContext.drop, hweak, NativeGLContext.unbind, h]
  · simp [NativeGLContext.drop, hweak, NativeGLContext.unbind, h]
  · have hmc0 : o.MakeCurrent c.native_display 0 0 0 = true := hmc
    simp [NativeGLContext.drop, hweak, NativeGLContext.unbind, h, eglMakeCurrent, hmc0,
      EGL_FALSE, NO_CONTEXT, NO_SURFACE, NO_DISPLAY]

/-- Witness for C2's amended theorem at a concrete input: dropping the weak
context observed on `egl_state0` leaves both destroy logs empty. -/
theorem NativeGLContext.weak_drop_spec_witness :
    weak_ctx0.weak = true ∧
    (NativeGLContext.drop egl_oracle_fail weak_ctx0 egl_state0).destroySurfaceLog = [] ∧
    (NativeGLContext.drop egl_oracle_fail weak_ctx0 egl_state0).destroyContextLog = [] := by
  have h := NativeGLContext.weak_drop_spec egl_oracle_fail weak_ctx0 egl_state0 rfl
  exact ⟨rfl, h.1, h.2.1⟩


/-- C6: `unbind` on a context that is not current is a no-op returning
`Ok(())` that leaves the whole native state (current-context slot included)
untouched; on the current context it clears the slot to
no-context/no-display/no-surface and returns `Ok(())` when the native
`MakeCurrent` accepts the clear, and returns the unbind error with the slot
unchanged only when the native call rejects it. -/
theorem NativeGLContext.unbind_spec (o : EglOracle) (c : NativeGLContext) (s : EglState) :
    (c.is_current s = false → c.unbind o s = (Except.ok (), s)) ∧
    (c.is_current s = true →
      (o.MakeCurrent c.native_display NO_SURFACE NO_SURFACE NO_CONTEXT = true →
        (c.unbind o s).1 = Except.ok () ∧
        (c.unbind o s).2.currentContext = NO_CONTEXT ∧
        (c.unbind o s).2.currentDisplay = NO_DISPLAY ∧
        (c.unbind o s).2.currentDrawSurface = NO_SURFACE ∧
        (c.unbind o s).2.currentReadSurface = NO_SURFACE) ∧
      (o.MakeCurrent c.native_display NO_SURFACE NO_SURFACE NO_CONTEXT = false →
        (c.unbind o s).1 = Except.error ("egl::MakeCurrent (on unbind)") ∧
        (c.unbind o s).2.currentContext = s.currentContext ∧
        (c.unbind o s).2.currentDisplay = s.currentDisplay ∧
        (c.unbind o s).2.currentDrawSurface = s.currentDrawSurface ∧
        (c.unbind o s).2.currentReadSurface = s.currentReadSurface)) := by
  refine ⟨fun h => ?_, fun h => ⟨fun hmc => ?_, fun hmc => ?_⟩⟩
  · simp [NativeGLContext.unbind, h]
  · have hmc0 : o.MakeCurrent c.native_display 0 0 0 = true := hmc
    simp [NativeGLContext.unbind, h, eglMakeCurrent, hmc0, EGL_FALSE, NO_CONTEXT,
      NO_DISPLAY, NO_SURFACE]
  · have hmc0 : o.MakeCurrent c.native_display 0 0 0 = false := hmc
    simp [NativeGLContext.unbind, h, eglMakeCurrent, hmc0, EGL_FALSE, NO_CONTEXT,
      NO_DISPLAY, NO_SURFACE]

/-- C7: a `make_current` that returns `Ok(())` leaves the context current
(`is_current` is true on the resulting state, with no intervening
operation); and `make_current` on an already-current context skips the
native bind entirely — it returns `Ok(())` with the native state, including
the `MakeCurrent` call log, unchanged. -/
theorem NativeGLContext.make_current_is_current_spec (o : EglOracle)
    (c : NativeGLContext) (s : EglState) :
    ((NativeGLContext.make_current o c s).1 = Except.ok () →
      c.is_current (NativeGLContext.make_current o c s).2 = true) ∧
    (c.is_current s = true → NativeGLContext.make_current o c s = (Except.ok (), s)) := by
  constructor
  · intro hok
    by_cases hc : c.is_current s = true
    · simp [NativeGLContext.make_current, hc]
    · by_cases hmc : o.MakeCurrent c.native_display c.native_surface c.native_surface
          c.native_context = true
      · have hc' : ¬ s.currentContext = c.native_context := by
          simpa [NativeGLContext.is_current] using hc
        simp [NativeGLContext.make_current, NativeGLContext.is_current, hc', eglMakeCurrent,
          hmc, EGL_FALSE]
      · rw [Bool.not_eq_true] at hmc
        simp [NativeGLContext.make_current, hc, eglMakeCurrent, hmc, EGL_FALSE] at hok
  · intro hc
    simp [NativeGLContext.make_current, hc]

/-- C10: every context `new` returns successfully is owning (`weak` is
false); a context built by `current()` is weak, and `current()` returns
`Some` only when both the thread's current context and current display are
non-null — indeed `current_handle` is `Some` exactly when both are
non-null. -/
theorem NativeGLContext.ownership_flag_spec (o : EglOracle) (s : EglState)
    (share_context : Option Nat) (display surface config : Nat) (client_version : Nat) :
    (∀ c s', NativeGLContext.new o s share_context display surface config client_version
        = (Except.ok c, s') → c.weak = false) ∧
    (∀ c, NativeGLContext.current o s = Outcome.ok (some c) →
      c.weak = true ∧ s.currentContext ≠ NO_CONTEXT ∧ s.currentDisplay ≠ NO_DISPLAY) ∧
    ((current_handle s).isSome = true ↔
      (s.currentContext ≠ NO_CONTEXT ∧ s.currentDisplay ≠ NO_DISPLAY)) := by
  refine ⟨fun c s' hc => ?_, fun c hc => ?_, ?_⟩
  · cases share_context <;>
        simp only [NativeGLContext.new] at hc <;>
        split at hc
    all_goals try split at hc
    all_goals injection hc with hA hB
    all_goals first
      | (injection hA with hA2
         subst hA2
         rfl)
      | injection hA
  · by_cases hnn : s.currentContext ≠ NO_CONTEXT ∧ s.currentDisplay ≠ NO_DISPLAY
    · simp only [NativeGLContext.current, current_handle, if_pos hnn] at hc
      split at hc
      · simp at hc
      · simp only [Outcome.ok.injEq, Option.some.injEq] at hc
        rw [← hc]
        exact ⟨rfl, hnn.1, hnn.2⟩
    · simp only [NativeGLContext.current, current_handle, if_neg hnn] at hc
      simp at hc
  · by_cases h1 : s.currentContext = NO_CONTEXT
    · simp [current_handle, h1]
    · by_cases h2 : s.currentDisplay = NO_DISPLAY
      · simp [current_handle, h1, h2]
      · simp [current_handle, h1, h2]

end WithEgl

namespace Universal

/-- C3: `create_context` succeeds only when the descriptor's
Hardware/Software tag equals the device's, every successfully returned
context carries that same tag, and on a tag mismatch the result is exactly
`Err(IncompatibleContextDescriptor)`. -/
theorem Device.create_context_tag_spec {HD SD HDesc SDesc HC SC : Type}
    (hw_create : HD → HDesc → Except Error HC)
    (sw_create : SD → SDesc → Except Error SC)
    (self : Device HD SD) (descriptor : ContextDescriptor HDesc SDesc) :
    (∀ context, Device.create_context hw_create sw_create self descriptor =
        Except.ok context →
      descriptor.tag = self.tag ∧ context.tag = self.tag) ∧
    (descriptor.tag ≠ self.tag →
      Device.create_context hw_create sw_create self descriptor =
        Except.error Error.IncompatibleContextDescriptor) := by
  constructor
  · intro context h
    cases self <;> cases descriptor <;>
        simp only [Device.create_context] at h
    case Hardware.Hardware device descriptor =>
      cases hh : hw_create device descriptor <;> simp [hh, Except.map] at h
      exact ⟨rfl, by simp [← h, Context.tag, Device.tag]⟩
    case Hardware.Software device descriptor => simp at h
    case Software.Hardware device descriptor => simp at h
    case Software.Software device descriptor =>
      cases hh : sw_create device descriptor <;> simp [hh, Except.map] at h
      exact ⟨rfl, by simp [← h, Context.tag, Device.tag]⟩
  · intro hne
    cases self <;> cases descriptor <;>
      simp_all [Device.create_context, Device.tag, ContextDescriptor.tag]

/-- C4: `bind_surface_to_context` never coerces across backends: when the
context matches the device but the surface's tag differs from the
context's, the result is exactly `Err(IncompatibleSurface)`; when the
context's tag differs from the device's, the result is exactly
`Err(IncompatibleContext)`. -/
theorem Device.bind_surface_tag_spec {HD SD HC SC HS SS : Type}
    (hw_bind : HD → HC → HS → Except Error HC)
    (sw_bind : SD → SC → SS → Except Error SC)
    (self : Device HD SD) (context : Context HC SC) (surface : Surface HS SS) :
    (context.tag = self.tag → surface.tag ≠ context.tag →
      Device.bind_surface_to_context hw_bind sw_bind self context surface =
        Except.error Error.IncompatibleSurface) ∧
    (context.tag ≠ self.tag →
      Device.bind_surface_to_context hw_bind sw_bind self context surface =
        Except.error Error.IncompatibleContext) := by
  constructor
  · intro heq hne
    cases self <;> cases context <;> cases surface <;>
      simp_all [Device.bind_surface_to_context, Device.tag, Context.tag, Surface.tag]
  · intro hne
    cases self <;> cases context <;>
      simp_all [Device.bind_surface_to_context, Device.tag, Context.tag]

/-- C8: on a device/context tag mismatch the query-only accessors
`context_descriptor`, `get_proc_address` and `context_id` all panic with
"Incompatible context!" (a hard failure, not an `Err`), and so does
`context_descriptor_attributes` on a device/descriptor mismatch; only
`context_surface`, whose signature returns a `Result`, reports the mismatch
as `Err(UnsupportedOnThisPlatform)`. -/
theorem Device.mismatch_accessor_spec {HD SD HC SC HDesc SDesc HS SS A : Type}
    (hw_desc : HD → HC → HDesc) (sw_desc : SD → SC → SDesc)
    (hw_attr : HD → HDesc → A) (sw_attr : SD → SDesc → A)
    (hw_proc : HD → HC → String → Nat) (sw_proc : SD → SC → String → Nat)
    (hw_id : HD → HC → Nat) (sw_id : SD → SC → Nat)
    (hw_surf : HD → HC → Except Error (Option HS))
    (sw_surf : SD → SC → Except Error (Option SS))
    (self : Device HD SD) (context : Context HC SC)
    (descriptor : ContextDescriptor HDesc SDesc) (symbol_name : String) :
    (context.tag ≠ self.tag →
      Device.context_descriptor hw_desc sw_desc self context =
        POutcome.panic ("Incompatible context!") ∧
      Device.get_proc_address hw_proc sw_proc self context symbol_name =
        POutcome.panic ("Incompatible context!") ∧
      Device.context_id hw_id sw_id self context =
        POutcome.panic ("Incompatible context!") ∧
      Device.context_surface hw_surf sw_surf self context =
        Except.error Error.UnsupportedOnThisPlatform) ∧
    (descriptor.tag ≠ self.tag →
      Device.context_descriptor_attributes hw_attr sw_attr self descriptor =
        POutcome.panic ("Incompatible context!")) := by
  constructor
  · intro hne
    cases self <;> cases context <;>
      simp_all [Device.context_descriptor, Device.get_proc_address, Device.context_id,
        Device.context_surface, Device.tag, Context.tag]
  · intro hne
    cases self <;> cases descriptor <;>
      simp_all [Device.context_descriptor_attributes, Device.tag, ContextDescriptor.tag]

end Universal

namespace Angle

/-- Helper shared by the `Device::new` and `Device::from_d3d11_device`
specifications: the adoption path never produces a recoverable `Err` — its
Rust return type is plain `Self`. -/
theorem Device.from_d3d11_device_ne_err (o : D3DOracle)
    (d3d11_device d3d_driver_type : Nat) (e : Universal.Error) :
    Device.from_d3d11_device o d3d11_device d3d_driver_type ≠
      Universal.POutcome.err e := by
  cases h : o.CreateDeviceANGLE with
  | none => simp [Device.from_d3d11_device, h]
  | some f =>
      simp only [Device.from_d3d11_device, h]
      split
      · simp
      · split
        · simp
        · split
          · simp
          · simp

/-- C9: `from_d3d11_device` never returns a recoverable error; when the
`EGL_ANGLE_device_creation` extension is absent, or device registration,
platform-display lookup, or display initialization fails, it panics with
the corresponding assertion message, and when all three steps succeed it
returns the fully constructed `Device` holding the opened display. -/
theorem Device.from_d3d11_device_total_spec (o : D3DOracle)
    (d3d11_device d3d_driver_type : Nat) :
    (∀ e, Device.from_d3d11_device o d3d11_device d3d_driver_type ≠
      Universal.POutcome.err e) ∧
    (o.CreateDeviceANGLE = none →
      Device.from_d3d11_device o d3d11_device d3d_driver_type =
        Universal.POutcome.panic
          ("Where is the EGL_ANGLE_device_creation extension?")) ∧
    (∀ f, o.CreateDeviceANGLE = some f →
      (f d3d11_device = EGL_NO_DEVICE_EXT →
        Device.from_d3d11_device o d3d11_device d3d_driver_type =
          Universal.POutcome.panic
            ("assertion failed: egl_device != EGL_NO_DEVICE_EXT")) ∧
      (f d3d11_device ≠ EGL_NO_DEVICE_EXT →
        o.GetPlatformDisplay (f d3d11_device) = NO_DISPLAY →
        Device.from_d3d11_device o d3d11_device d3d_driver_type =
          Universal.POutcome.panic
            ("assertion failed: egl_display != egl::NO_DISPLAY")) ∧
      (f d3d11_device ≠ EGL_NO_DEVICE_EXT →
        o.GetPlatformDisplay (f d3d11_device) ≠ NO_DISPLAY →
        o.initDisplay (o.GetPlatformDisplay (f d3d11_device)) = EGL_FALSE →
        Device.from_d3d11_device o d3d11_device d3d_driver_type =
          Universal.POutcome.panic ("assertion failed: result != egl::FALSE")) ∧
      (f d3d11_device ≠ EGL_NO_DEVICE_EXT →
        o.GetPlatformDisplay (f d3d11_device) ≠ NO_DISPLAY →
        o.initDisplay (o.GetPlatformDisplay (f d3d11_device)) ≠ EGL_FALSE →
        Device.from_d3d11_device o d3d11_device d3d_driver_type =
          Universal.POutcome.ok
            { native_display := o.GetPlatformDisplay (f d3d11_device)
              d3d11_device := d3d11_device
              d3d_driver_type := d3d_driver_type })) := by
  refine ⟨Device.from_d3d11_device_ne_err o d3d11_device d3d_driver_type, ?_, ?_⟩
  · intro hnone
    simp [Device.from_d3d11_device, hnone]
  · intro f hf
    refine ⟨fun h1 => ?_, fun h1 h2 => ?_, fun h1 h2 h3 => ?_, fun h1 h2 h3 => ?_⟩
    · simp [Device.from_d3d11_device, hf, h1]
    · simp [Device.from_d3d11_device, hf, h1, h2]
    · simp [Device.from_d3d11_device, hf, h1, h2, h3]
    · simp [Device.from_d3d11_device, hf, h1, h2, h3]

/-- C5 counterexample: with a driver where `D3D11CreateDevice` succeeds
(`HRESULT` 0) but reports feature level 0, below `D3D_FEATURE_LEVEL_9_3`,
`Device::new` does not return `Err(DeviceOpenFailed)` (in this debug build
it aborts on the `debug_assert!` instead). -/
theorem Device.new_feature_level_counterexample :
    SUCCEEDED (d3d_oracle0.D3D11CreateDevice adapter0.dxgi_adapter
        adapter0.d3d_driver_type).1 = true ∧
    (d3d_oracle0.D3D11CreateDevice adapter0.dxgi_adapter
        adapter0.d3d_driver_type).2.2 < D3D_FEATURE_LEVEL_9_3 ∧
    Device.new d3d_oracle0 adapter0 ≠
      Universal.POutcome.err Universal.Error.DeviceOpenFailed := by
  refine ⟨rfl, by decide, by decide⟩

/-- C5 as amended: `new` returns `Err(DeviceOpenFailed)` exactly when the
native `D3D11CreateDevice` call fails; a feature level below
`D3D_FEATURE_LEVEL_9_3` on a successful creation is checked only by a
`debug_assert!` — in a debug build `new` aborts with that assertion (a
panic, not an error value), and in a release build (or when the level
meets the minimum) it proceeds to adopt the device via
`from_d3d11_device` — so a low feature level never yields
`DeviceOpenFailed`. -/
theorem Device.new_error_spec (o : D3DOracle) (adapter : Adapter) :
    (SUCCEEDED (o.D3D11CreateDevice adapter.dxgi_adapter
        adapter.d3d_driver_type).1 = false ↔
      Device.new o adapter =
        Universal.POutcome.err Universal.Error.DeviceOpenFailed) ∧
    (SUCCEEDED (o.D3D11CreateDevice adapter.dxgi_adapter
        adapter.d3d_driver_type).1 = true →
      o.debugAssertions = true →
      (o.D3D11CreateDevice adapter.dxgi_adapter adapter.d3d_driver_type).2.2 <
        D3D_FEATURE_LEVEL_9_3 →
      Device.new o adapter = Universal.POutcome.panic
        ("debug assertion failed: d3d11_feature_level >= D3D_FEATURE_LEVEL_9_3")) ∧
    (SUCCEEDED (o.D3D11CreateDevice adapter.dxgi_adapter
        adapter.d3d_driver_type).1 = true →
      (o.debugAssertions = false ∨
        D3D_FEATURE_LEVEL_9_3 ≤
          (o.D3D11CreateDevice adapter.dxgi_adapter adapter.d3d_driver_type).2.2) →
      Device.new o adapter =
        Device.from_d3d11_device o
          (o.D3D11CreateDevice adapter.dxgi_adapter adapter.d3d_driver_type).2.1
          adapter.d3d_driver_type) := by
  refine ⟨⟨fun hS => ?_, fun hE => ?_⟩, fun hS hdbg hlvl => ?_, fun hS hor => ?_⟩
  · simp [Device.new, hS]
  · by_contra hS
    rw [Bool.not_eq_false] at hS
    by_cases hd : o.debugAssertions = true ∧
        (o.D3D11CreateDevice adapter.dxgi_adapter adapter.d3d_driver_type).2.2 <
          D3D_FEATURE_LEVEL_9_3
    · simp [Device.new, hS, hd] at hE
    · simp [Device.new, hS, hd] at hE
      exact Device.from_d3d11_device_ne_err o _ _ _ hE
  · simp [Device.new, hS, hdbg, hlvl]
  · have hcond : ¬(o.debugAssertions = true ∧
        (o.D3D11CreateDevice adapter.dxgi_adapter adapter.d3d_driver_type).2.2 <
          D3D_FEATURE_LEVEL_9_3) := by
      rcases hor with h | h
      · exact fun hab => by simp [h] at hab
      · exact fun hab => absurd hab.2 (not_lt.mpr h)
    simp [Device.new, hS, hcond]

end Angle
